import Mathlib

/-!
Verification of the Echo prompt-generator frontend.

This file shallowly embeds the view-state logic of the single-page React
frontend (src/frontend/src/App.tsx) together with the API-client request
shapes (the services module: promptService / templateService) and proves
the stated behavioural properties about them.

Modelling conventions:
  - JavaScript strings are Lean Strings; the JS primitives used by the
    source (trim, toLowerCase, includes, truthiness of strings, the
    logical-or operator on strings) are modelled explicitly below.
  - JavaScript numbers are rationals; the source performs no arithmetic
    on them beyond passing slider values through, so this is faithful.
  - The React component state (useState hooks) is one record, AppState;
    event handlers become state-transition functions; the asynchronous
    enhance call is a function of the state and the eventual network
    outcome.
  - JSON serialization of the request (axios POST body) is modelled by
    the ordered list of key / value pairs that JSON.stringify emits;
    object fields holding the value undefined are omitted, as
    JSON.stringify does.
-/

namespace Echo

/-! ## JavaScript string primitives -/

/-- Characters removed by the JavaScript trim operation: the ECMAScript
WhiteSpace and LineTerminator code points. -/
def jsWhitespace (c : Char) : Bool :=
  c = ' ' || c = '\t' || c = '\n' || c = '\r' || c = '\u000B' || c = '\u000C' ||
  c = '\u00A0' || c = '\u1680' || c = '\u2000' || c = '\u2001' ||
  c = '\u2002' || c = '\u2003' || c = '\u2004' || c = '\u2005' ||
  c = '\u2006' || c = '\u2007' || c = '\u2008' || c = '\u2009' ||
  c = '\u200A' || c = '\u2028' || c = '\u2029' || c = '\u202F' ||
  c = '\u205F' || c = '\u3000' || c = '\uFEFF'

/-- Model of the JavaScript trim operation: drop leading and trailing
whitespace characters. -/
def jsTrim (s : String) : String :=
  String.mk (((s.toList.dropWhile jsWhitespace).reverse.dropWhile jsWhitespace).reverse)

/-- Model of the JavaScript toLowerCase operation, character by character. -/
def jsToLower (s : String) : String :=
  String.mk (s.toList.map Char.toLower)

/-- Executable substring test on character lists: does the needle occur
contiguously inside the haystack? -/
def listIncludes (needle : List Char) : List Char → Bool
  | [] => needle.isEmpty
  | c :: rest => needle.isPrefixOf (c :: rest) || listIncludes needle rest

/-- Model of the JavaScript includes operation on strings:
jsIncludes hay needle is true when needle occurs contiguously in hay. -/
def jsIncludes (hay needle : String) : Bool :=
  listIncludes needle.toList hay.toList

/-- Model of the JavaScript logical-or on two strings: the empty string is
falsy, so the left operand is returned exactly when it is non-empty. -/
def jsOrStr (a b : String) : String :=
  if a = "" then b else a

/-- Model of the JavaScript logical-or whose left operand is an optional
chain (it may be undefined): undefined and the empty string are both falsy. -/
def jsOrOptStr (a : Option String) (b : String) : String :=
  match a with
  | none => b
  | some v => jsOrStr v b

/-! ## Data model (services module) -/

/-- Template record, from the templateService interface. -/
structure Template where
  id : String
  name : String
  category : String
  description : String
  system_prompt_prefix : String
  deriving DecidableEq

/-- Request body shape for the enhance endpoint, from the promptService
interface EnhancePromptRequest. Optional fields are Options: the value
none models the field holding undefined. -/
structure EnhancePromptRequest where
  prompt_text : String
  template_id : Option String
  temperature : Option ℚ
  max_tokens : Option ℚ
  custom_system_prompt : Option String
  deriving DecidableEq

/-- Persona block of the enhanced result. -/
structure Persona where
  role : String
  expertise : String
  perspective : String
  deriving DecidableEq

/-- Task block of the enhanced result. -/
structure Task where
  objective : String
  deliverable : String
  constraints : List String
  deriving DecidableEq

/-- Context block of the enhanced result. -/
structure Context where
  technical_background : String
  key_considerations : List String
  audience : String
  deriving DecidableEq

/-- Format block of the enhanced result. -/
structure Format where
  output_style : String
  «structure» : List String
  tone : String
  deriving DecidableEq

/-- The nested enhanced object of the response. -/
structure Enhanced where
  id : Int
  persona : Persona
  task : Task
  context : Context
  format : Format
  consolidated_prompt : String
  improvement_summary : String
  model_used : String
  tokens_used : Int
  deriving DecidableEq

/-- Response shape of the enhance endpoint, from the promptService
interface EnhancedPromptResponse. -/
structure EnhancedPromptResponse where
  id : Int
  original_text : String
  enhanced : Enhanced
  created_at : String
  deriving DecidableEq

/-! ## JSON serialization of the request body -/

/-- JSON values occurring in the enhance request body. -/
inductive JsonVal
  | str : String → JsonVal
  | num : ℚ → JsonVal
  deriving DecidableEq

/-- A field that JSON.stringify emits only when its value is defined. -/
def optField (key : String) (v : Option JsonVal) : List (String × JsonVal) :=
  match v with
  | none => []
  | some j => [(key, j)]

/-- The ordered key / value pairs of the serialized request body, in the
order the object literal in handleEnhance lists them; fields holding
undefined are omitted, as JSON.stringify omits them. -/
def serializeRequest (r : EnhancePromptRequest) : List (String × JsonVal) :=
  [("prompt_text", JsonVal.str r.prompt_text)]
    ++ optField "template_id" (r.template_id.map JsonVal.str)
    ++ optField "temperature" (r.temperature.map JsonVal.num)
    ++ optField "max_tokens" (r.max_tokens.map JsonVal.num)
    ++ optField "custom_system_prompt" (r.custom_system_prompt.map JsonVal.str)

/-! ## View state (the App component's useState hooks) -/

/-- The complete React component state of App: one field per useState hook,
with the hook's initial value recorded in initialState below. -/
structure AppState where
  inputPrompt : String
  loading : Bool
  result : Option EnhancedPromptResponse
  error : String
  templates : List Template
  showAdvanced : Bool
  showTemplates : Bool
  searchQuery : String
  selectedTemplate : Option Template
  temperature : ℚ
  maxTokens : ℚ
  customSystemPrompt : String
  deriving DecidableEq

/-- The initial values of the useState hooks in App. -/
def initialState : AppState where
  inputPrompt := ""
  loading := false
  result := none
  error := ""
  templates := []
  showAdvanced := false
  showTemplates := true
  searchQuery := ""
  selectedTemplate := none
  temperature := 3 / 10
  maxTokens := 2048
  customSystemPrompt := ""

/-- Which of the two mutually exclusive top-level views is rendered. -/
inductive View
  | editing
  | resultDisplayed
  deriving DecidableEq

/-- The App render branches on whether a result is present: the input view
when result is null, the results view otherwise. -/
def currentView (s : AppState) : View :=
  match s.result with
  | none => View.editing
  | some _ => View.resultDisplayed

/-- The consolidated prompt string shown in the results view, when that
view is rendered: the consolidated_prompt field of the held result. -/
def renderedConsolidatedPrompt (s : AppState) : Option String :=
  s.result.map (fun r => r.enhanced.consolidated_prompt)

/-- The derived filteredTemplates value in App: keep the templates whose
lower-cased name or lower-cased category contains the lower-cased search
query. -/
def filteredTemplates (templates : List Template) (searchQuery : String) : List Template :=
  templates.filter fun t =>
    jsIncludes (jsToLower t.name) (jsToLower searchQuery) ||
    jsIncludes (jsToLower t.category) (jsToLower searchQuery)

/-! ## Event handlers -/

/-- The request object built in handleEnhance. The template_id field is the
optional chain on selectedTemplate; custom_system_prompt is the logical-or
with undefined, so the empty string becomes undefined. -/
def buildRequest (s : AppState) : EnhancePromptRequest where
  prompt_text := s.inputPrompt
  template_id := s.selectedTemplate.map Template.id
  temperature := some s.temperature
  max_tokens := some s.maxTokens
  custom_system_prompt := if s.customSystemPrompt = "" then none else some s.customSystemPrompt

/-- The error object an axios call rejects with: the optional chain
err.response?.data?.error collapses to an optional server-provided error
string, and err.message is the transport error message. -/
structure JsError where
  responseDataError : Option String
  message : String
  deriving DecidableEq

/-- The error-message extraction in handleEnhance's catch block:
err.response?.data?.error, or else err.message, or else the fallback. -/
def extractErrorMessage (err : JsError) : String :=
  jsOrStr (jsOrOptStr err.responseDataError err.message) "Failed to enhance prompt"

/-- The eventual outcome of the awaited enhancePrompt call. -/
inductive EnhanceOutcome
  | success : EnhancedPromptResponse → EnhanceOutcome
  | failure : JsError → EnhanceOutcome

/-- The state right after handleEnhance passes its guard and before the
request is awaited: setLoading(true) and setError('') have run. -/
def enhancePreSendState (s : AppState) : AppState :=
  { s with loading := true, error := "" }

/-- The handleEnhance handler, as a function of the starting state and the
network outcome of the request it would issue. It returns the final state
and whether a request was issued: the guard returns early, issuing no
request, when the trimmed input is empty (falsy). On success the response
is stored; on failure the extracted error message is stored; the finally
block clears the loading flag on both paths. -/
def handleEnhance (s : AppState) (outcome : EnhanceOutcome) : AppState × Bool :=
  if jsTrim s.inputPrompt = "" then (s, false)
  else
    match outcome with
    | EnhanceOutcome.success resp =>
        ({ enhancePreSendState s with result := some resp, loading := false }, true)
    | EnhanceOutcome.failure err =>
        ({ enhancePreSendState s with error := extractErrorMessage err, loading := false }, true)

/-- The applyTemplate handler: select the template and clear the custom
system prompt. -/
def applyTemplate (s : AppState) (template : Template) : AppState :=
  { s with selectedTemplate := some template, customSystemPrompt := "" }

/-- The onClick of the Enhance Another Prompt button: clear the result, the
input text and the search query. -/
def enhanceAnother (s : AppState) : AppState :=
  { s with result := none, inputPrompt := "", searchQuery := "" }

/-- The disabled attribute of the Enhance button, negated: the button is
enabled when the trimmed input is truthy and no request is loading. -/
def enhanceButtonEnabled (s : AppState) : Bool :=
  !(jsTrim s.inputPrompt == "") && !s.loading

/-! ## Event-level transition system

For the temporal claim about in-flight requests, the dispatch of the
enhance call and its completion are separate events. The system state
pairs the component state with the number of enhance requests currently
in flight on the network. -/

/-- Component state plus the number of enhance requests in flight. -/
structure SysState where
  app : AppState
  inFlight : ℕ

/-- The system starts at the hooks' initial values with nothing in flight. -/
def initialSys : SysState where
  app := initialState
  inFlight := 0

/-- One UI or network event. Guards record where the DOM allows the event:
the Enhance button exists only in the input view and fires only while
enabled; the Enhance Another button exists only in the results view; a
network completion requires a request in flight. -/
inductive Step : SysState → SysState → Prop
  | dispatchEnhance {s : SysState}
      (hview : s.app.result = none)
      (henabled : enhanceButtonEnabled s.app = true) :
      Step s ⟨enhancePreSendState s.app, s.inFlight + 1⟩
  | completeSuccess {s : SysState} (resp : EnhancedPromptResponse)
      (hpending : 0 < s.inFlight) :
      Step s ⟨{ s.app with result := some resp, loading := false }, s.inFlight - 1⟩
  | completeFailure {s : SysState} (err : JsError)
      (hpending : 0 < s.inFlight) :
      Step s ⟨{ s.app with error := extractErrorMessage err, loading := false }, s.inFlight - 1⟩
  | editPrompt {s : SysState} (text : String) (hview : s.app.result = none) :
      Step s ⟨{ s.app with inputPrompt := text }, s.inFlight⟩
  | setSearch {s : SysState} (q : String) (hview : s.app.result = none) :
      Step s ⟨{ s.app with searchQuery := q }, s.inFlight⟩
  | selectTemplate {s : SysState} (t : Template) (hview : s.app.result = none) :
      Step s ⟨applyTemplate s.app t, s.inFlight⟩
  | clickEnhanceAnother {s : SysState} (hview : s.app.result.isSome = true) :
      Step s ⟨enhanceAnother s.app, s.inFlight⟩
  | templatesLoaded {s : SysState} (ts : List Template) :
      Step s ⟨{ s.app with templates := ts }, s.inFlight⟩
  | setTemperatureEv {s : SysState} (v : ℚ) (hview : s.app.result = none) :
      Step s ⟨{ s.app with temperature := v }, s.inFlight⟩
  | setMaxTokensEv {s : SysState} (v : ℚ) (hview : s.app.result = none) :
      Step s ⟨{ s.app with maxTokens := v }, s.inFlight⟩
  | setCustomPromptEv {s : SysState} (txt : String) (hview : s.app.result = none) :
      Step s ⟨{ s.app with customSystemPrompt := txt }, s.inFlight⟩
  | toggleAdvanced {s : SysState} :
      Step s ⟨{ s.app with showAdvanced := !s.app.showAdvanced }, s.inFlight⟩
  | toggleTemplates {s : SysState} :
      Step s ⟨{ s.app with showTemplates := !s.app.showTemplates }, s.inFlight⟩

/-- States reachable from the initial state by a sequence of events. -/
inductive Reachable : SysState → Prop
  | init : Reachable initialSys
  | step {s s' : SysState} : Reachable s → Step s s' → Reachable s'

/-- The in-flight count is determined by the loading flag: one request in
flight exactly while loading is set, none otherwise. -/
def flightInv (s : SysState) : Prop :=
  s.inFlight = (if s.app.loading then 1 else 0)

/-! ## Sample values used by the concrete witnesses -/

/-- A concrete template. -/
def sampleTemplate : Template where
  id := "t1"
  name := "Code Review"
  category := "Engineering"
  description := "Structured review of source code"
  system_prompt_prefix := "You are a meticulous reviewer."

/-- A concrete enhanced-prompt response. -/
def sampleResponse : EnhancedPromptResponse where
  id := 1
  original_text := "write code"
  enhanced :=
    { id := 1
      persona := { role := "engineer", expertise := "software", perspective := "pragmatic" }
      task := { objective := "write code", deliverable := "a program", constraints := ["clear"] }
      context :=
        { technical_background := "general"
          key_considerations := ["correctness"]
          audience := "developers" }
      format := { output_style := "markdown", «structure» := ["sections"], tone := "neutral" }
      consolidated_prompt := "You are an engineer. Write a clear program."
      improvement_summary := "Added persona, task, context and format."
      model_used := "gemini-2.5-flash"
      tokens_used := 100 }
  created_at := "2026-01-01T00:00:00Z"

/-- The initial state after the user types a prompt. -/
def writeCodeState : AppState :=
  { initialState with inputPrompt := "write code" }

/-- A system state about to dispatch: prompt typed, nothing in flight. -/
def sampleDispatchSys : SysState where
  app := writeCodeState
  inFlight := 0

/-! ## Helper lemmas -/

/-- The executable substring test agrees with the contiguous-sublist
relation on lists. -/
lemma listIncludes_iff (needle hay : List Char) :
    listIncludes needle hay = true ↔ needle <:+: hay := by
  induction hay with
  | nil => simp [listIncludes, List.isEmpty_iff, List.infix_nil]
  | cons c rest ih =>
      simp [listIncludes, List.infix_cons_iff, List.isPrefixOf_iff_prefix, ih]

/-- The empty needle occurs in every haystack. -/
lemma listIncludes_nil (hay : List Char) : listIncludes [] hay = true := by
  cases hay <;> simp [listIncludes, List.isPrefixOf]

/-- Lowering the empty string gives the empty character list. -/
lemma jsToLower_empty_data : (jsToLower "").data = [] := rfl

/-- Trimming a string of whitespace characters yields the empty string. -/
lemma jsTrim_of_all_whitespace {s : String}
    (h : ∀ c ∈ s.toList, jsWhitespace c = true) : jsTrim s = "" := by
  have h1 : List.dropWhile jsWhitespace s.data = [] := List.dropWhile_eq_nil_iff.mpr h
  show String.mk (((s.data.dropWhile jsWhitespace).reverse.dropWhile jsWhitespace).reverse) = ""
  rw [h1]
  rfl

/-- The extracted error message is never the empty string. -/
lemma extractErrorMessage_ne_empty (err : JsError) :
    extractErrorMessage err ≠ "" := by
  unfold extractErrorMessage jsOrStr
  split
  · decide
  · assumption

/-- Every event preserves the in-flight invariant. -/
lemma flightInv_step {s s' : SysState} (hinv : flightInv s) (hstep : Step s s') :
    flightInv s' := by
  unfold flightInv at hinv ⊢
  cases hstep <;> cases hb : s.app.loading <;>
    simp_all [enhanceButtonEnabled, enhancePreSendState, applyTemplate, enhanceAnother]

/-- The in-flight invariant holds in every reachable state. -/
lemma reachable_flightInv {s : SysState} (h : Reachable s) : flightInv s := by
  induction h with
  | init => simp [flightInv, initialSys, initialState]
  | step _ hstep ih => exact flightInv_step ih hstep

/-! ## Claim theorems -/

/-- C1: for every enhancement submission where the input prompt text is
"write code", no template is selected, the custom system prompt is empty,
and temperature and max tokens hold their defaults 0.3 and 2048, the
request body passed to the enhance operation serializes to exactly the
pairs prompt_text "write code", temperature 0.3 and max_tokens 2048, with
no template_id field and no custom_system_prompt field. -/
theorem request_body_defaults_write_code (s : AppState)
    (hprompt : s.inputPrompt = "write code")
    (htmpl : s.selectedTemplate = none)
    (hcustom : s.customSystemPrompt = "")
    (htemp : s.temperature = 3 / 10)
    (hmax : s.maxTokens = 2048) :
    serializeRequest (buildRequest s) =
      [("prompt_text", JsonVal.str "write code"),
       ("temperature", JsonVal.num (3 / 10)),
       ("max_tokens", JsonVal.num 2048)] ∧
    ∀ kv ∈ serializeRequest (buildRequest s),
      kv.1 ≠ "template_id" ∧ kv.1 ≠ "custom_system_prompt" := by
  have hbody : serializeRequest (buildRequest s) =
      [("prompt_text", JsonVal.str "write code"),
       ("temperature", JsonVal.num (3 / 10)),
       ("max_tokens", JsonVal.num 2048)] := by
    simp [serializeRequest, buildRequest, optField, hprompt, htmpl, hcustom, htemp, hmax]
  refine ⟨hbody, ?_⟩
  rw [hbody]
  decide

/-- Witness for C1 at the concrete default state with prompt
"write code". -/
theorem request_body_defaults_write_code_witness :
    serializeRequest (buildRequest writeCodeState) =
      [("prompt_text", JsonVal.str "write code"),
       ("temperature", JsonVal.num (3 / 10)),
       ("max_tokens", JsonVal.num 2048)] ∧
    ∀ kv ∈ serializeRequest (buildRequest writeCodeState),
      kv.1 ≠ "template_id" ∧ kv.1 ≠ "custom_system_prompt" :=
  request_body_defaults_write_code writeCodeState rfl rfl rfl rfl rfl

/-- C2: for every input prompt text that is empty or consists only of
whitespace, the enhance submission handler issues no network request. -/
theorem whitespace_prompt_no_request (s : AppState) (outcome : EnhanceOutcome)
    (h : ∀ c ∈ s.inputPrompt.toList, jsWhitespace c = true) :
    (handleEnhance s outcome).2 = false := by
  simp [handleEnhance, jsTrim_of_all_whitespace h]

/-- Witness for C2 at a concrete whitespace-only prompt. -/
theorem whitespace_prompt_no_request_witness :
    (handleEnhance { initialState with inputPrompt := " \t " }
        (EnhanceOutcome.success sampleResponse)).2 = false :=
  whitespace_prompt_no_request _ _ (by decide)

/-- C3: every successful enhance call transitions the view from the input
view to the result view, and the consolidated prompt rendered there equals
the response's consolidated_prompt field exactly. -/
theorem success_transitions_to_result (s : AppState) (resp : EnhancedPromptResponse)
    (hedit : currentView s = View.editing)
    (hsent : (handleEnhance s (EnhanceOutcome.success resp)).2 = true) :
    currentView (handleEnhance s (EnhanceOutcome.success resp)).1 = View.resultDisplayed ∧
    renderedConsolidatedPrompt (handleEnhance s (EnhanceOutcome.success resp)).1 =
      some resp.enhanced.consolidated_prompt := by
  by_cases htrim : jsTrim s.inputPrompt = ""
  · simp [handleEnhance, htrim] at hsent
  · simp [handleEnhance, htrim, currentView, renderedConsolidatedPrompt, enhancePreSendState]

/-- Witness for C3 at the concrete prompt state and sample response. -/
theorem success_transitions_to_result_witness :
    currentView (handleEnhance writeCodeState (EnhanceOutcome.success sampleResponse)).1 =
      View.resultDisplayed ∧
    renderedConsolidatedPrompt
        (handleEnhance writeCodeState (EnhanceOutcome.success sampleResponse)).1 =
      some sampleResponse.enhanced.consolidated_prompt :=
  success_transitions_to_result writeCodeState sampleResponse rfl (by decide)

/-- C4: every failed enhance call returns the view to the editing state
with a non-empty error message, and the typed input prompt text is
unchanged from its value at submission time. -/
theorem failure_returns_to_editing (s : AppState) (err : JsError)
    (hedit : s.result = none)
    (hsent : (handleEnhance s (EnhanceOutcome.failure err)).2 = true) :
    currentView (handleEnhance s (EnhanceOutcome.failure err)).1 = View.editing ∧
    (handleEnhance s (EnhanceOutcome.failure err)).1.error ≠ "" ∧
    (handleEnhance s (EnhanceOutcome.failure err)).1.inputPrompt = s.inputPrompt := by
  by_cases htrim : jsTrim s.inputPrompt = ""
  · simp [handleEnhance, htrim] at hsent
  · refine ⟨?_, ?_, ?_⟩ <;>
      simp [handleEnhance, htrim, currentView, enhancePreSendState, hedit,
        extractErrorMessage_ne_empty]

/-- Witness for C4 at the concrete prompt state and a transport error. -/
theorem failure_returns_to_editing_witness :
    currentView (handleEnhance writeCodeState
        (EnhanceOutcome.failure (JsError.mk none "Network Error"))).1 = View.editing ∧
    (handleEnhance writeCodeState
        (EnhanceOutcome.failure (JsError.mk none "Network Error"))).1.error ≠ "" ∧
    (handleEnhance writeCodeState
        (EnhanceOutcome.failure (JsError.mk none "Network Error"))).1.inputPrompt =
      writeCodeState.inputPrompt :=
  failure_returns_to_editing writeCodeState (JsError.mk none "Network Error") rfl (by decide)

/-- C5 counterexample: the claim says the server-provided error field is
displayed whenever it is present, but a present-but-empty server error
field is falsy in the source's logical-or chain, so the transport message
is displayed instead. -/
theorem error_priority_counterexample :
    ¬ (∀ err : JsError, ∀ v : String, err.responseDataError = some v →
        extractErrorMessage err = v) := by
  intro h
  have h0 := h (JsError.mk (some "") "Request failed with status code 500") "" rfl
  exact absurd h0 (by decide)

/-- C5 (amended): the displayed error message is the server-provided error
field when present and non-empty; otherwise, when the server field is
absent or empty, it is the transport error message when non-empty, and the
fixed fallback string when that too is empty. -/
theorem error_priority_amended (err : JsError) :
    (∀ v, err.responseDataError = some v → v ≠ "" → extractErrorMessage err = v) ∧
    (err.responseDataError.getD "" = "" → err.message ≠ "" →
      extractErrorMessage err = err.message) ∧
    (err.responseDataError.getD "" = "" → err.message = "" →
      extractErrorMessage err = "Failed to enhance prompt") := by
  obtain ⟨rde, msg⟩ := err
  refine ⟨?_, ?_, ?_⟩ <;> cases rde <;>
    simp_all [extractErrorMessage, jsOrOptStr, jsOrStr]

/-- Witness for C5 (amended) at the three concrete error shapes. -/
theorem error_priority_amended_witness :
    extractErrorMessage (JsError.mk (some "bad request") "boom") = "bad request" ∧
    extractErrorMessage (JsError.mk none "boom") = "boom" ∧
    extractErrorMessage (JsError.mk (some "") "") = "Failed to enhance prompt" :=
  ⟨(error_priority_amended (JsError.mk (some "bad request") "boom")).1
      "bad request" rfl (by decide),
   (error_priority_amended (JsError.mk none "boom")).2.1 rfl (by decide),
   (error_priority_amended (JsError.mk (some "") "")).2.2 rfl rfl⟩

/-- C6: the filtered template list retains exactly the templates whose name
or category contains the query case-insensitively, and the empty query
retains every template. -/
theorem template_filter_spec (ts : List Template) (q : String) :
    (∀ t, t ∈ filteredTemplates ts q ↔
      t ∈ ts ∧
        ((jsToLower q).toList <:+: (jsToLower t.name).toList ∨
         (jsToLower q).toList <:+: (jsToLower t.category).toList)) ∧
    filteredTemplates ts "" = ts := by
  constructor
  · intro t
    simp [filteredTemplates, List.mem_filter, jsIncludes, listIncludes_iff]
  · refine List.filter_eq_self.mpr fun t _ => ?_
    simp [jsIncludes, jsToLower_empty_data, listIncludes_nil]

/-- Witness for C6: the empty query keeps the sample template list. -/
theorem template_filter_spec_witness :
    filteredTemplates [sampleTemplate] "" = [sampleTemplate] :=
  (template_filter_spec [sampleTemplate] "").2

/-- C7: applying a template sets it as the single selected template,
replacing whatever was selected before (selection is one optional field,
so two templates are never active), clears the custom system-prompt
override, and leaves the input prompt text unchanged. -/
theorem apply_template_spec (s : AppState) (t : Template) :
    (applyTemplate s t).selectedTemplate = some t ∧
    (applyTemplate s t).customSystemPrompt = "" ∧
    (applyTemplate s t).inputPrompt = s.inputPrompt :=
  ⟨rfl, rfl, rfl⟩

/-- C8: from every state displaying a result, the enhance-another action
clears the result, the input prompt text and the template search query,
returns the view to the editing state, and keeps the selected template. -/
theorem enhance_another_spec (s : AppState) (r : EnhancedPromptResponse)
    (hres : s.result = some r) :
    currentView (enhanceAnother s) = View.editing ∧
    (enhanceAnother s).result = none ∧
    (enhanceAnother s).inputPrompt = "" ∧
    (enhanceAnother s).searchQuery = "" ∧
    (enhanceAnother s).selectedTemplate = s.selectedTemplate :=
  ⟨rfl, rfl, rfl, rfl, rfl⟩

/-- Witness for C8 at a concrete state displaying the sample response. -/
theorem enhance_another_spec_witness :
    currentView (enhanceAnother { writeCodeState with result := some sampleResponse }) =
      View.editing ∧
    (enhanceAnother { writeCodeState with result := some sampleResponse }).result = none ∧
    (enhanceAnother { writeCodeState with result := some sampleResponse }).inputPrompt = "" ∧
    (enhanceAnother { writeCodeState with result := some sampleResponse }).searchQuery = "" ∧
    (enhanceAnother { writeCodeState with result := some sampleResponse }).selectedTemplate =
      AppState.selectedTemplate { writeCodeState with result := some sampleResponse } :=
  enhance_another_spec { writeCodeState with result := some sampleResponse } sampleResponse rfl

/-- C9: in every reachable system state at most one enhance request is in
flight, and every event that puts a request in flight starts from a state
whose trimmed prompt text is non-empty and whose loading flag is clear. -/
theorem single_request_in_flight :
    (∀ s : SysState, Reachable s → s.inFlight ≤ 1) ∧
    (∀ s s' : SysState, Step s s' → s.inFlight < s'.inFlight →
      jsTrim s.app.inputPrompt ≠ "" ∧ s.app.loading = false) := by
  constructor
  · intro s hs
    have h := reachable_flightInv hs
    unfold flightInv at h
    by_cases hb : s.app.loading <;> simp [hb] at h <;> omega
  · intro s s' hstep hincr
    cases hstep <;> simp_all [enhanceButtonEnabled] <;> omega

/-- Witness for C9 at the initial state and a concrete dispatch step. -/
theorem single_request_in_flight_witness :
    initialSys.inFlight ≤ 1 ∧
    (jsTrim sampleDispatchSys.app.inputPrompt ≠ "" ∧
      sampleDispatchSys.app.loading = false) :=
  ⟨single_request_in_flight.1 initialSys Reachable.init,
   single_request_in_flight.2 sampleDispatchSys
     ⟨enhancePreSendState sampleDispatchSys.app, sampleDispatchSys.inFlight + 1⟩
     (Step.dispatchEnhance rfl (by decide)) (by decide)⟩

/-- C10: every invocation of the enhance handler that issues a request
finishes with the loading flag cleared, on success and on failure alike,
and the pre-send state has already cleared any displayed error message. -/
theorem enhance_terminates_unloaded (s : AppState) (outcome : EnhanceOutcome)
    (hsent : (handleEnhance s outcome).2 = true) :
    (handleEnhance s outcome).1.loading = false ∧
    (enhancePreSendState s).error = "" := by
  by_cases htrim : jsTrim s.inputPrompt = ""
  · simp [handleEnhance, htrim] at hsent
  · cases outcome <;> simp [handleEnhance, htrim, enhancePreSendState]

/-- Witness for C10 at the concrete prompt state, on both outcomes. -/
theorem enhance_terminates_unloaded_witness :
    (handleEnhance writeCodeState
        (EnhanceOutcome.failure (JsError.mk (some "server busy") "boom"))).1.loading = false ∧
    (enhancePreSendState writeCodeState).error = "" :=
  enhance_terminates_unloaded writeCodeState
    (EnhanceOutcome.failure (JsError.mk (some "server busy") "boom")) (by decide)

end Echo
